import Mathlib

/-!
Shallow embedding of the grimoire fuzzer wiring (src/src/main.rs) for
specification checking.  The program configures a LibAFL-based fuzzing
campaign: it probes the target for its coverage-map size, builds two
forkserver executors (a main one and a cmplog-tracing one), wires a
feedback made of a coverage-map feedback OR a time feedback, a crash
objective, a conditional cmplog stage, a generalization stage, two
mutational stages and a sync stage, and then runs the fuzzing loop.
Bytes are modelled as naturals below 256, machine integers as naturals
reduced modulo two to the sixty-fourth power where wrapping matters.
-/

namespace Grimoire

/-- Command-line options of the program, mirroring the Opt struct
(src/src/main.rs lines 216-244).  Paths are modelled as strings,
the core list as a list of core ids. -/
structure Opt where
  executable : String
  out_dir : String
  cores : List Nat
  input_dir : String
  broker_port : Nat
  hang_timeout : Nat
  dict_path : Option String
  map_bias : Nat
  foreign_sync_dirs : List String
deriving Repr, DecidableEq

/-- Result of probing the target with AFL_DUMP_MAP_SIZE=1: either the
spawn produced no output at all, or it produced a stdout byte string
(bytes as naturals). -/
inductive ProbeResult where
  | noOutput : ProbeResult
  | output (stdout : List Nat) : ProbeResult
deriving Repr, DecidableEq

/-- Decode one UTF-8 scalar value from the front of a byte list,
returning the decoded code point and the rest, or none when the bytes
are not well-formed UTF-8 (overlong forms, surrogates and out-of-range
values rejected, as in Rust's String::from_utf8). -/
def utf8DecodeOne : List Nat → Option (Nat × List Nat)
  | [] => none
  | b :: rest =>
    if b < 0x80 then
      some (b, rest)
    else if b < 0xC2 then
      none
    else if b < 0xE0 then
      match rest with
      | b1 :: rest1 =>
        if 0x80 ≤ b1 ∧ b1 < 0xC0 then
          some ((b - 0xC0) * 64 + (b1 - 0x80), rest1)
        else none
      | _ => none
    else if b < 0xF0 then
      match rest with
      | b1 :: b2 :: rest2 =>
        if 0x80 ≤ b1 ∧ b1 < 0xC0 ∧ 0x80 ≤ b2 ∧ b2 < 0xC0 then
          let v := (b - 0xE0) * 4096 + (b1 - 0x80) * 64 + (b2 - 0x80)
          if 0x800 ≤ v ∧ ¬ (0xD800 ≤ v ∧ v < 0xE000) then some (v, rest2) else none
        else none
      | _ => none
    else if b < 0xF5 then
      match rest with
      | b1 :: b2 :: b3 :: rest3 =>
        if 0x80 ≤ b1 ∧ b1 < 0xC0 ∧ 0x80 ≤ b2 ∧ b2 < 0xC0 ∧ 0x80 ≤ b3 ∧ b3 < 0xC0 then
          let v := (b - 0xF0) * 262144 + (b1 - 0x80) * 4096 + (b2 - 0x80) * 64 + (b3 - 0x80)
          if 0x10000 ≤ v ∧ v < 0x110000 then some (v, rest3) else none
        else none
      | _ => none
    else none

/-- Fuel-driven driver for the decoder; one unit of fuel per decoded
scalar value suffices because every successful step consumes at least
one byte, so fuel equal to the byte count never runs out. -/
def utf8DecodeAux : Nat → List Nat → Option (List Nat)
  | _, [] => some []
  | 0, _ :: _ => none
  | fuel + 1, bs =>
    match utf8DecodeOne bs with
    | none => none
    | some (v, rest) => (utf8DecodeAux fuel rest).map (fun vs => v :: vs)

/-- Decode a full byte list as UTF-8 into a list of code points, or
none when any step fails; models String::from_utf8 on the probe
stdout. -/
def utf8Decode (bs : List Nat) : Option (List Nat) :=
  utf8DecodeAux bs.length bs

/-- Remove every newline code point, modelling the Rust call
replacing the linefeed string by the empty string. -/
def stripNewlines (cs : List Nat) : List Nat :=
  cs.filter (fun c => c ≠ 10)

/-- Parse a decimal usize the way Rust's FromStr for usize does:
an optional leading plus sign, then one or more ASCII digits, value
within the 64-bit range; anything else fails. -/
def parseUsize (cs : List Nat) : Option Nat :=
  let ds := match cs with
    | 43 :: rest => rest
    | other => other
  if ds = [] then none
  else if ds.all (fun c => 48 ≤ c ∧ c ≤ 57) then
    let v := ds.foldl (fun a c => a * 10 + (c - 48)) 0
    if v < 2 ^ 64 then some v else none
  else none

/-- The map-size computation of run_client (src/src/main.rs lines
59-68): probe the target, expect output, decode it as UTF-8, strip
newlines, parse as usize and add the caller-supplied bias; each
failure is a panic, modelled as an error carrying the panic message. -/
def mapSizeResult (pr : ProbeResult) (bias : Nat) : Except String Nat :=
  match pr with
  | .noOutput => .error "target gave no output"
  | .output stdout =>
    match utf8Decode stdout with
    | none => .error "target returned illegal mapsize"
    | some cs =>
      match parseUsize (stripNewlines cs) with
      | none => .error "illegal mapsize output"
      | some n => .ok (n + bias)

/-- Main-node test (src/src/main.rs line 72): the worker whose core id
sits at position zero of the configured core list is the coordinating
node. -/
def is_main_node (cores : List Nat) (core_id : Nat) : Bool :=
  cores.indexOf core_id == 0

/-- Configuration of a ForkserverExecutor as assembled by the builder
calls in the source; debug_child defaults to false when the builder
call is absent. -/
structure ForkserverConfig where
  program : String
  coverage_map_size : Nat
  debug_child : Bool
  is_persistent : Bool
  is_deferred_frksrv : Bool
  timeout_ms : Nat
deriving Repr, DecidableEq

/-- The cmplog tracing executor (src/src/main.rs lines 140-148):
program, coverage map size, persistent, deferred forkserver, and a
timeout of (hang_timeout * 1000) * 2 milliseconds. -/
def cmplog_executor (opt : Opt) (map_size : Nat) : ForkserverConfig :=
  { program := opt.executable
    coverage_map_size := map_size
    debug_child := false
    is_persistent := true
    is_deferred_frksrv := true
    timeout_ms := (opt.hang_timeout * 1000) * 2 }

/-- The main executor (src/src/main.rs lines 185-194): program,
coverage map size, debug_child, persistent, deferred forkserver, and a
timeout of hang_timeout * 1000 milliseconds. -/
def executor (opt : Opt) (map_size : Nat) : ForkserverConfig :=
  { program := opt.executable
    coverage_map_size := map_size
    debug_child := true
    is_persistent := true
    is_deferred_frksrv := true
    timeout_ms := opt.hang_timeout * 1000 }

/-- Client setup up to executor construction: compute the map size
once from the probe, then build both executors from that single value;
a map-size failure aborts before anything else. -/
structure ClientConfig where
  map_size : Nat
  mainExec : ForkserverConfig
  cmplogExec : ForkserverConfig
deriving Repr, DecidableEq

/-- Assemble the per-worker configuration the way run_client does:
the single map_size value feeds both executor builders. -/
def clientSetup (opt : Opt) (pr : ProbeResult) : Except String ClientConfig :=
  match mapSizeResult pr opt.map_bias with
  | .error e => .error e
  | .ok n => .ok { map_size := n, mainExec := executor opt n, cmplogExec := cmplog_executor opt n }

/-- The closure cb gating the cmplog stage (src/src/main.rs lines
156-166): true exactly when this worker is the main node and the
current testcase has a scheduled count of zero. -/
def cb (main_node : Bool) (scheduled_count : Nat) : Bool :=
  main_node && scheduled_count == 0

/-- Modelled from the spec: an IfStage evaluates its predicate
immediately before running and executes its inner stages (contributing
their executions) exactly when the predicate returns true, otherwise
contributing no executions that iteration. -/
def ifStageExecutions (gate : Bool) (innerExecs : Nat) : Nat :=
  if gate then innerExecs else 0

/-- The closure gating the sync stage (src/src/main.rs line 169):
true exactly when this worker is the main node and the foreign sync
directory list is non-empty. -/
def syncGate (main_node : Bool) (foreign_sync_dirs : List String) : Bool :=
  main_node && !foreign_sync_dirs.isEmpty

/-- The fixed rescan interval handed to SyncFromDiskStage
(src/src/main.rs line 172), in seconds. -/
def syncIntervalSecs : Nat := 15 * 60

/-- Kinds of stages appearing in the stage tuple of the fuzzing loop. -/
inductive StageKind where
  | cmplogStage : StageKind
  | generalizationStage : StageKind
  | byteMutationalStage : StageKind
  | grimoireMutationalStage : StageKind
  | syncStage : StageKind
deriving Repr, DecidableEq

/-- The stage tuple passed to fuzz_loop (src/src/main.rs lines
176-184), in source order. -/
def stages : List StageKind :=
  [.cmplogStage, .generalizationStage, .byteMutationalStage,
   .grimoireMutationalStage, .syncStage]

/-- Exit classification of one target execution. -/
inductive ExitKind where
  | ok : ExitKind
  | crash : ExitKind
  | timeout : ExitKind
deriving Repr, DecidableEq

/-- Observable outcome of one execution: whether the coverage-map
feedback saw novelty (a new edge or a changed hitcount bucket), the
elapsed time, and the exit classification. -/
structure ExecOutcome where
  mapNovel : Bool
  duration : Nat
  exitKind : ExitKind
deriving Repr, DecidableEq

/-- The MaxMapFeedback verdict: interesting exactly when the coverage
map showed novelty. -/
def mapFeedbackInteresting (o : ExecOutcome) : Bool :=
  o.mapNovel

/-- Modelled from the spec: the TimeFeedback records the execution
duration for scheduling purposes but never by itself reports a run as
interesting. -/
def timeFeedbackInteresting (_o : ExecOutcome) : Bool :=
  false

/-- Eager boolean OR of two feedback verdicts, as built by the
feedback_or macro combining the map feedback with the time feedback
(src/src/main.rs line 86): the map feedback is the first operand and
the time feedback the second. -/
def feedback (o : ExecOutcome) : Bool :=
  mapFeedbackInteresting o || timeFeedbackInteresting o

/-- The CrashFeedback objective (src/src/main.rs line 87): satisfied
exactly when the exit classification is a crash. -/
def objective (o : ExecOutcome) : Bool :=
  o.exitKind == .crash

/-- Destination of an executed input. -/
inductive Dest where
  | crashes : Dest
  | queue : Dest
  | discard : Dest
deriving Repr, DecidableEq

/-- Modelled from the spec: the fuzzer stores a run satisfying the
objective in the objective corpus (the crashes directory) and does not
also place it in the main corpus; a non-objective run is stored in the
main corpus (the queue directory) exactly when the feedback finds it
interesting, and discarded otherwise. -/
def route (o : ExecOutcome) : Dest :=
  if objective o then .crashes
  else if feedback o then .queue
  else .discard

/-- A token dictionary: a set of byte strings. -/
def Tokens := List (List Nat)

/-- Dictionary loading (src/src/main.rs lines 100-104): when a
dictionary path is supplied, read and parse it (add_from_files); a
failure panics with the message tokens, a success adds the parsed
token set to the state metadata exactly once.  The returned list is
the sequence of token sets added to the metadata. -/
def dictMetadata (dict_path : Option String)
    (read : String → Option Tokens) : Except String (List Tokens) :=
  match dict_path with
  | none => .ok []
  | some p =>
    match read p with
    | none => .error "tokens"
    | some t => .ok [t]

/-- State of the RomuDuoJr pseudo-random generator backing StdRand:
two 64-bit words, modelled as naturals reduced modulo 2 ^ 64. -/
structure RomuState where
  x : Nat
  y : Nat
deriving Repr, DecidableEq

/-- Left rotation of a 64-bit word by k bits. -/
def rotl64 (v k : Nat) : Nat :=
  ((v * 2 ^ k) % 2 ^ 64) + (v % 2 ^ 64) / 2 ^ (64 - k) % 2 ^ k

/-- One RomuDuoJr step: return the previous x word, multiply y by the
fixed odd constant into x, subtract (wrapping) the old x from y and
rotate it left by 27. -/
def romuNext (s : RomuState) : Nat × RomuState :=
  let xp := s.x % 2 ^ 64
  let x := (15241094284759029579 * s.y) % 2 ^ 64
  let y := rotl64 ((s.y % 2 ^ 64 + 2 ^ 64 - xp) % 2 ^ 64) 27
  (xp, { x := x, y := y })

/-- Modelled from the spec: the RNG is seeded once, from a single
numeric seed (the code derives that number from the current clock, so
the command surface offers no way to fix it). -/
def romuSeed (seed : Nat) : RomuState :=
  { x := seed % 2 ^ 64, y := (seed + 0x9E3779B97F4A7C15) % 2 ^ 64 }

/-- Campaign state threaded through the embedded driver loop: the RNG,
the corpus of accepted byte strings, the cumulative seen coverage
signature, the sequence of accepted test cases in acceptance order,
and the recorded execution durations (time metadata, consulted by
scheduling heuristics but never by the acceptance decision). -/
structure CampaignState where
  rng : RomuState
  corpus : List (List Nat)
  seen : List Nat
  accepted : List (List Nat)
  durations : List Nat
deriving Repr, DecidableEq

/-- Deterministic representative mutator: with the drawn random word,
either flip one byte of the seed input or append a byte when the seed
is empty. -/
def mutateInput (r : Nat) (inp : List Nat) : List Nat :=
  match inp with
  | [] => [r % 256]
  | _ :: _ =>
    let i := r % inp.length
    inp.set i ((inp.getD i 0 + 1 + r) % 256)

/-- Coverage novelty of a run relative to the cumulative seen set. -/
def novelCoverage (seen cov : List Nat) : Bool :=
  cov.any (fun e => !seen.contains e)

/-- Modelled from the spec: one iteration of the campaign driver loop
over the embedded state.  The scheduler picks a seed with the RNG, the
mutation pipeline derives a candidate with the RNG, the execution
channel runs the deterministic target (yielding a coverage signature)
and reports the observed duration, and the feedback evaluator accepts
the candidate exactly when its coverage is novel; the duration is only
recorded.  An empty corpus yields an empty scheduling cycle. -/
def stepCampaign (target : List Nat → List Nat) (dur : Nat)
    (s : CampaignState) : CampaignState :=
  match s.corpus with
  | [] => s
  | c :: cs =>
    let (r1, rng1) := romuNext s.rng
    let seedInp := (c :: cs).getD (r1 % (c :: cs).length) []
    let (r2, rng2) := romuNext rng1
    let cand := mutateInput r2 seedInp
    let cov := target cand
    let isNew := novelCoverage s.seen cov
    { rng := rng2
      corpus := if isNew then s.corpus ++ [cand] else s.corpus
      seen := if isNew then s.seen ++ cov.filter (fun e => !s.seen.contains e) else s.seen
      accepted := if isNew then s.accepted ++ [cand] else s.accepted
      durations := s.durations ++ [dur] }

/-- Run the embedded campaign loop for n iterations from a fixed RNG
seed and initial corpus, against a deterministic target; the stream d
supplies the wall-clock duration observed at each iteration (the one
environmental input the loop records). -/
def runCampaign (seed : Nat) (corpus0 : List (List Nat))
    (target : List Nat → List Nat) (d : Nat → Nat) : Nat → CampaignState
  | 0 =>
    { rng := romuSeed seed, corpus := corpus0, seen := [],
      accepted := [], durations := [] }
  | n + 1 => stepCampaign target (d n) (runCampaign seed corpus0 target d n)

/-- Concrete option set used to instantiate theorems with hypotheses:
two cores, one-second hang timeout, no bias, no dictionary, no foreign
sync directories. -/
def sampleOpt : Opt :=
  { executable := "./target"
    out_dir := "out"
    cores := [0, 1]
    input_dir := "in"
    broker_port := 4000
    hang_timeout := 1
    dict_path := none
    map_bias := 0
    foreign_sync_dirs := [] }

/-- Client configuration obtained from sampleOpt when the probe prints
1024 followed by a newline. -/
def sampleCfg : ClientConfig :=
  { map_size := 1024
    mainExec := executor sampleOpt 1024
    cmplogExec := cmplog_executor sampleOpt 1024 }

/-- C1: the cmplog stage gate cb returns true exactly when the worker
is the main node and the current testcase's scheduled count is zero,
and whenever that conjunction fails the IfStage wrapping colorization,
tracing and RedQueen contributes zero executions that iteration. -/
theorem cmplog_gate_iff (cores : List Nat) (cid s k : Nat) :
    (cb (is_main_node cores cid) s = true ↔
      is_main_node cores cid = true ∧ s = 0) ∧
    (is_main_node cores cid = true ↔ cores.indexOf cid = 0) ∧
    (¬ (is_main_node cores cid = true ∧ s = 0) →
      ifStageExecutions (cb (is_main_node cores cid) s) k = 0) := by
  refine ⟨by simp [cb], by simp [is_main_node], ?_⟩
  intro h
  have : cb (is_main_node cores cid) s = false := by
    cases hmn : is_main_node cores cid with
    | false => simp [cb]
    | true =>
      have hs : s ≠ 0 := fun hs0 => h ⟨hmn, hs0⟩
      simp [cb, hs]
  simp [ifStageExecutions, this]

theorem cmplog_gate_iff_witness :
    cb (is_main_node [0, 1] 0) 0 = true ∧
    ifStageExecutions (cb (is_main_node [0, 1] 1) 0) 7 = 0 :=
  ⟨(cmplog_gate_iff [0, 1] 0 0 7).1.mpr ⟨by decide, rfl⟩,
   (cmplog_gate_iff [0, 1] 1 0 7).2.2 (by decide)⟩

/-- C2: the stage tuple handed to fuzz_loop holds exactly five stages
in the order cmplog, generalization, byte-level mutational, grimoire
mutational, sync. -/
theorem stage_order :
    stages.length = 5 ∧
    stages.indexOf StageKind.cmplogStage = 0 ∧
    stages.indexOf StageKind.generalizationStage = 1 ∧
    stages.indexOf StageKind.byteMutationalStage = 2 ∧
    stages.indexOf StageKind.grimoireMutationalStage = 3 ∧
    stages.indexOf StageKind.syncStage = 4 := by
  decide

/-- C3 counterexample: with a one-second hang timeout, the tracing
executor's per-execution timeout (2000 ms) differs from the main
executor's (1000 ms), so the two executors are not configured
identically on every listed parameter. -/
theorem cmplog_executor_not_identical :
    (cmplog_executor sampleOpt 65536).timeout_ms ≠
      (executor sampleOpt 65536).timeout_ms := by
  decide

/-- C3 amended: the tracing executor matches the main executor on
program, coverage-map size, persistent mode and deferred forkserver,
while its per-execution timeout is exactly twice the main executor's
timeout. -/
theorem cmplog_executor_config (opt : Opt) (n : Nat) :
    (cmplog_executor opt n).program = (executor opt n).program ∧
    (cmplog_executor opt n).coverage_map_size = (executor opt n).coverage_map_size ∧
    (cmplog_executor opt n).is_persistent = (executor opt n).is_persistent ∧
    (cmplog_executor opt n).is_deferred_frksrv = (executor opt n).is_deferred_frksrv ∧
    (cmplog_executor opt n).timeout_ms = 2 * (executor opt n).timeout_ms := by
  refine ⟨rfl, rfl, rfl, rfl, ?_⟩
  simp [cmplog_executor, executor]
  ring

/-- C4: a successful client setup computes the map size once, as the
number parsed from the probe's newline-stripped UTF-8 output plus the
caller-supplied bias, and that single value is the coverage-map size
of both the main executor and the tracing executor. -/
theorem map_size_once (opt : Opt) (pr : ProbeResult) (cfg : ClientConfig)
    (h : clientSetup opt pr = .ok cfg) :
    (∃ stdout cs raw, pr = .output stdout ∧ utf8Decode stdout = some cs ∧
      parseUsize (stripNewlines cs) = some raw ∧
      cfg.map_size = raw + opt.map_bias) ∧
    cfg.mainExec.coverage_map_size = cfg.map_size ∧
    cfg.cmplogExec.coverage_map_size = cfg.map_size := by
  unfold clientSetup at h
  cases pr with
  | noOutput => simp [mapSizeResult] at h
  | output stdout =>
    cases hdec : utf8Decode stdout with
    | none => simp [mapSizeResult, hdec] at h
    | some cs =>
      cases hp : parseUsize (stripNewlines cs) with
      | none => simp [mapSizeResult, hdec, hp] at h
      | some raw =>
        simp only [mapSizeResult, hdec, hp, Except.ok.injEq] at h
        subst h
        exact ⟨⟨stdout, cs, raw, rfl, hdec, hp, rfl⟩, rfl, rfl⟩

theorem map_size_once_witness :
    sampleCfg.mainExec.coverage_map_size = sampleCfg.map_size ∧
    sampleCfg.cmplogExec.coverage_map_size = sampleCfg.map_size :=
  ⟨(map_size_once sampleOpt (.output [49, 48, 50, 52, 10]) sampleCfg rfl).2.1,
   (map_size_once sampleOpt (.output [49, 48, 50, 52, 10]) sampleCfg rfl).2.2⟩

/-- C5: the combined feedback is the eager OR of the map feedback with
the time feedback, the time feedback always reports false, and hence a
run is interesting exactly when the coverage-map feedback reports
novelty. -/
theorem time_feedback_never_triggers (o : ExecOutcome) :
    feedback o = (mapFeedbackInteresting o || timeFeedbackInteresting o) ∧
    timeFeedbackInteresting o = false ∧
    feedback o = mapFeedbackInteresting o := by
  refine ⟨rfl, rfl, ?_⟩
  simp [feedback, timeFeedbackInteresting]

/-- C6: a run satisfies the objective exactly when its exit
classification is a crash; a crashing run is routed to the crashes
store and never to the queue, and a hang or normal exit is never
routed to the crashes store. -/
theorem crash_objective_routing (o : ExecOutcome) :
    (objective o = true ↔ o.exitKind = .crash) ∧
    (o.exitKind = .crash → route o = .crashes ∧ route o ≠ .queue) ∧
    (o.exitKind ≠ .crash → route o ≠ .crashes) := by
  refine ⟨?_, ?_, ?_⟩
  · simp [objective]
  · intro h
    have : objective o = true := by simp [objective, h]
    simp [route, this]
  · intro h
    have : objective o = false := by simp [objective]; exact h
    simp [route, this]
    split <;> simp

theorem crash_objective_routing_witness :
    route { mapNovel := true, duration := 5, exitKind := .crash } = .crashes ∧
    route { mapNovel := true, duration := 5, exitKind := .crash } ≠ .queue ∧
    route { mapNovel := true, duration := 5, exitKind := .timeout } ≠ .crashes :=
  ⟨((crash_objective_routing _).2.1 rfl).1,
   ((crash_objective_routing _).2.1 rfl).2,
   (crash_objective_routing { mapNovel := true, duration := 5, exitKind := .timeout }).2.2
     (by simp)⟩

/-- C7: the sync stage gate returns true exactly when the worker is
the main node and the foreign sync directory list is non-empty; when
that conjunction fails the IfStage contributes zero executions, and
the rescan interval is fixed at fifteen minutes. -/
theorem sync_stage_gate (cores : List Nat) (cid : Nat) (dirs : List String) (k : Nat) :
    (syncGate (is_main_node cores cid) dirs = true ↔
      is_main_node cores cid = true ∧ dirs ≠ []) ∧
    (¬ (is_main_node cores cid = true ∧ dirs ≠ []) →
      ifStageExecutions (syncGate (is_main_node cores cid) dirs) k = 0) ∧
    syncIntervalSecs = 15 * 60 := by
  refine ⟨?_, ?_, rfl⟩
  · cases is_main_node cores cid <;> simp [syncGate]
  · intro h
    have : syncGate (is_main_node cores cid) dirs = false := by
      cases hmn : is_main_node cores cid with
      | false => simp [syncGate]
      | true =>
        have hd : dirs = [] := by
          by_contra hne
          exact h ⟨hmn, hne⟩
        simp [syncGate, hd]
    simp [ifStageExecutions, this]

theorem sync_stage_gate_witness :
    syncGate (is_main_node [0, 1] 0) ["peer"] = true ∧
    ifStageExecutions (syncGate (is_main_node [0, 1] 1) ["peer"]) 9 = 0 :=
  ⟨(sync_stage_gate [0, 1] 0 ["peer"] 9).1.mpr ⟨by decide, by simp⟩,
   (sync_stage_gate [0, 1] 1 ["peer"] 9).2.1 (by decide)⟩

/-- C8: the map-size computation panics when the probe gives no
output, when the output is not valid UTF-8, or when the decoded,
newline-stripped text does not parse as a number; it succeeds, letting
the worker proceed to the loop, exactly when a number is parsed, then
returning that number plus the bias. -/
theorem map_size_probe_failures (bias : Nat) (stdout : List Nat) :
    mapSizeResult .noOutput bias = .error "target gave no output" ∧
    (utf8Decode stdout = none →
      mapSizeResult (.output stdout) bias = .error "target returned illegal mapsize") ∧
    (∀ cs, utf8Decode stdout = some cs → parseUsize (stripNewlines cs) = none →
      mapSizeResult (.output stdout) bias = .error "illegal mapsize output") ∧
    (∀ cs n, utf8Decode stdout = some cs → parseUsize (stripNewlines cs) = some n →
      mapSizeResult (.output stdout) bias = .ok (n + bias)) := by
  refine ⟨rfl, ?_, ?_, ?_⟩
  · intro h; simp [mapSizeResult, h]
  · intro cs h hp; simp [mapSizeResult, h, hp]
  · intro cs n h hp; simp [mapSizeResult, h, hp]

theorem map_size_probe_failures_witness :
    mapSizeResult (.output [255]) 0 = .error "target returned illegal mapsize" ∧
    mapSizeResult (.output [97]) 0 = .error "illegal mapsize output" ∧
    mapSizeResult (.output [52, 50, 10]) 0 = .ok 42 :=
  ⟨(map_size_probe_failures 0 [255]).2.1 (by decide),
   (map_size_probe_failures 0 [97]).2.2.1 [97] (by decide) (by decide),
   (map_size_probe_failures 0 [52, 50, 10]).2.2.2 [52, 50, 10] 42 (by decide) (by decide)⟩

/-- One loop step started from states agreeing on RNG, corpus, seen
set and accepted sequence again agrees on those four fields, whatever
durations were observed before or during the step. -/
theorem stepCampaign_core (target : List Nat → List Nat) (d1 d2 : Nat)
    (s1 s2 : CampaignState) (hr : s1.rng = s2.rng) (hc : s1.corpus = s2.corpus)
    (hs : s1.seen = s2.seen) (ha : s1.accepted = s2.accepted) :
    (stepCampaign target d1 s1).rng = (stepCampaign target d2 s2).rng ∧
    (stepCampaign target d1 s1).corpus = (stepCampaign target d2 s2).corpus ∧
    (stepCampaign target d1 s1).seen = (stepCampaign target d2 s2).seen ∧
    (stepCampaign target d1 s1).accepted = (stepCampaign target d2 s2).accepted := by
  obtain ⟨r1, c1, v1, a1, du1⟩ := s1
  obtain ⟨r2, c2, v2, a2, du2⟩ := s2
  dsimp at hr hc hs ha
  subst hr; subst hc; subst hs; subst ha
  cases c1 <;> simp [stepCampaign]

/-- Non-duration fields of the campaign after n iterations agree
between two runs differing only in their observed-duration streams. -/
theorem runCampaign_core (seed : Nat) (corpus0 : List (List Nat))
    (target : List Nat → List Nat) (d1 d2 : Nat → Nat) (n : Nat) :
    (runCampaign seed corpus0 target d1 n).rng =
      (runCampaign seed corpus0 target d2 n).rng ∧
    (runCampaign seed corpus0 target d1 n).corpus =
      (runCampaign seed corpus0 target d2 n).corpus ∧
    (runCampaign seed corpus0 target d1 n).seen =
      (runCampaign seed corpus0 target d2 n).seen ∧
    (runCampaign seed corpus0 target d1 n).accepted =
      (runCampaign seed corpus0 target d2 n).accepted := by
  induction n with
  | zero => exact ⟨rfl, rfl, rfl, rfl⟩
  | succ n ih =>
    exact stepCampaign_core target (d1 n) (d2 n) _ _ ih.1 ih.2.1 ih.2.2.1 ih.2.2.2

/-- C9: with a fixed RNG seed, a fixed initial corpus and a
deterministic target, two runs of the embedded campaign loop produce
the same sequence of accepted test cases after any number of
iterations, even when the wall-clock durations they observe differ. -/
theorem accepted_deterministic (seed : Nat) (corpus0 : List (List Nat))
    (target : List Nat → List Nat) (d1 d2 : Nat → Nat) (n : Nat) :
    (runCampaign seed corpus0 target d1 n).accepted =
      (runCampaign seed corpus0 target d2 n).accepted :=
  (runCampaign_core seed corpus0 target d1 d2 n).2.2.2

/-- C10: when a dictionary path is supplied, an unreadable or
unparsable token file aborts the worker with the tokens panic before
the loop, and a successful load adds the parsed token set to the state
metadata exactly once; with no dictionary path nothing is added. -/
theorem dict_tokens (p : String) (read : String → Option Tokens) :
    (read p = none → dictMetadata (some p) read = .error "tokens") ∧
    (∀ t, read p = some t → dictMetadata (some p) read = .ok [t]) ∧
    dictMetadata none read = .ok [] := by
  refine ⟨?_, ?_, rfl⟩
  · intro h; simp [dictMetadata, h]
  · intro t h; simp [dictMetadata, h]

theorem dict_tokens_witness :
    dictMetadata (some "grammar.dict") (fun _ => none) = .error "tokens" ∧
    dictMetadata (some "grammar.dict") (fun _ => some [[70, 79, 79]]) =
      .ok [[[70, 79, 79]]] :=
  ⟨(dict_tokens "grammar.dict" (fun _ => none)).1 rfl,
   (dict_tokens "grammar.dict" (fun _ => some [[70, 79, 79]])).2.1 [[70, 79, 79]] rfl⟩

end Grimoire
